import Mathlib

/-!
Verification development for the `mail_box_configs` package
(`src/rpc-helpers.ts`, two shipped variants).

The package is a static chain-metadata registry plus pure URL-building
helpers.  Two variants of `rpc-helpers.ts` exist in the sources:

* variant 1 (`part_001`), defensive: registry lookups return an optional
  value; four providers (Alchemy, Ankr, Metamask, QuickNode);
* variant 2 (`part_002`), fail-fast: `getChainInfo` throws on an unknown
  chain; three providers (no QuickNode).

Variant-1 functions keep their source names; variant-2 functions carry a
`V2` suffix.  TypeScript `Optional<string>` is `Option String`; a TS
falsy test `!s` on a string is `s = ""`, and on an `Optional<string>`
it is `none` or `some ""`.  Variant-2 exceptions are modelled with
`Except String`.  Every helper is parametrised by the registry `m`,
which in the source is the module-level constant `CHAIN_INFO_MAP`.
-/

namespace MailBoxConfigs

/-- Chain identifiers are values of the string enum `Chain` in the
TypeScript source (`@sudobility/types`). -/
abbrev Chain := String

/-- ChainType enum: EVM or SOLANA. -/
inductive ChainType where
  | EVM
  | SOLANA
deriving DecidableEq

/-- Consolidated chain information record (interface `ChainInfo`).
Variant 2's record lacks the `chain` and `quicknodeNetwork` fields; its
functions never read them, so the single richer record serves both. -/
structure ChainInfo where
  chain : Chain
  chainType : ChainType
  chainId : Int
  name : String
  alchemyNetwork : Option String
  ankrNetwork : Option String
  metamaskNetwork : Option String
  quicknodeNetwork : Option String
  explorerDomain : Option String
  explorerBrowserDomain : Option String
  usdcAddress : Option String
  isTestNet : Bool
  mailerAddress : Option String
  startingBlock : Option Int
deriving DecidableEq

/-- RPC provider API keys configuration (variant 1: four providers). -/
structure ApiKeys where
  alchemyApiKey : Option String
  ankrApiKey : Option String
  metamaskApiKey : Option String
  quicknodeApiKey : Option String
deriving DecidableEq

/-- RPC provider API keys configuration (variant 2: three providers). -/
structure ApiKeysV2 where
  alchemyApiKey : Option String
  ankrApiKey : Option String
  metamaskApiKey : Option String
deriving DecidableEq

/-- Blockchain API keys configuration (variant 1). -/
structure BlockchainApis where
  apiKeys : ApiKeys
  etherscanApiKey : String
deriving DecidableEq

/-- Blockchain API keys configuration (variant 2). -/
structure BlockchainApisV2 where
  apiKeys : ApiKeysV2
  etherscanApiKey : String
deriving DecidableEq

/-- RPC endpoint providers (variant 1 enum `RpcEndpoint`). -/
inductive RpcEndpoint where
  | Alchemy
  | Ankr
  | Metamask
  | QuickNode
deriving DecidableEq

/-- RPC endpoint providers (variant 2 enum `RpcEndpoint`, no QuickNode). -/
inductive RpcEndpointV2 where
  | Alchemy
  | Ankr
  | Metamask
deriving DecidableEq

/-- Variant 1 `getRpcUrl` accepts the preferred endpoint either as an
`RpcEndpoint` enum value or as a provider-name string. -/
inductive EndpointArg where
  | ofEnum (e : RpcEndpoint)
  | ofName (s : String)
deriving DecidableEq

/-- Property access `CHAIN_INFO_MAP[chain]` on the registry object,
modelled as first-match lookup in the insertion-ordered entry list
(object keys are unique, so first match is the match). -/
def lookupInfo : List (Chain × ChainInfo) → Chain → Option ChainInfo
  | [], _ => none
  | (k, v) :: rest, c => if k = c then some v else lookupInfo rest c

/-- The value list `Object.values(CHAIN_INFO_MAP)`, in insertion order. -/
def chainValues (m : List (Chain × ChainInfo)) : List ChainInfo :=
  m.map Prod.snd

/-- Truthiness of an `Optional<string>` (used by `if (url) return url`):
defined and non-empty. -/
def truthyOpt : Option String → Bool
  | none => false
  | some s => !(decide (s = ""))

/-- JavaScript `key.split(':')`: split a string at every colon, keeping
empty segments, never dropping the trailing segment. -/
def splitColonAux : List Char → List Char → List String
  | [], acc => [String.mk acc.reverse]
  | ch :: rest, acc =>
    if ch = ':' then String.mk acc.reverse :: splitColonAux rest []
    else splitColonAux rest (ch :: acc)

/-- JavaScript `String.prototype.split` with separator `":"`. -/
def splitColon (s : String) : List String :=
  splitColonAux s.data []

/-- Variant 1 `RpcHelpers.isEvmChain`. -/
def isEvmChain (m : List (Chain × ChainInfo)) (chain : Chain) : Bool :=
  match lookupInfo m chain with
  | some info => decide (info.chainType = ChainType.EVM)
  | none => false

/-- Variant 1 `RpcHelpers.isSolanaChain`. -/
def isSolanaChain (m : List (Chain × ChainInfo)) (chain : Chain) : Bool :=
  match lookupInfo m chain with
  | some info => decide (info.chainType = ChainType.SOLANA)
  | none => false

/-- Variant 1 `RpcHelpers.getChainInfo`. -/
def getChainInfo (m : List (Chain × ChainInfo)) (chain : Chain) : Option ChainInfo :=
  lookupInfo m chain

/-- Variant 1 `RpcHelpers.getChainType`. -/
def getChainType (m : List (Chain × ChainInfo)) (chain : Chain) : Option ChainType :=
  (getChainInfo m chain).map ChainInfo.chainType

/-- Variant 1 `RpcHelpers.getChainInfoById`:
`Object.values(CHAIN_INFO_MAP).find((info) => info.chainId === chainId)`. -/
def getChainInfoById (m : List (Chain × ChainInfo)) (chainId : Int) : Option ChainInfo :=
  (chainValues m).find? (fun info => decide (info.chainId = chainId))

/-- Variant 1 `RpcHelpers.getChainId`. -/
def getChainId (m : List (Chain × ChainInfo)) (chain : Chain) : Option Int :=
  (getChainInfo m chain).map ChainInfo.chainId

/-- Variant 1 `RpcHelpers.getUSDCAddress`. -/
def getUSDCAddress (m : List (Chain × ChainInfo)) (chain : Chain) : Option String :=
  (getChainInfo m chain).bind ChainInfo.usdcAddress

/-- Variant 1 `RpcHelpers.getUserFriendlyName`. -/
def getUserFriendlyName (m : List (Chain × ChainInfo)) (chain : Chain) : Option String :=
  (getChainInfo m chain).map ChainInfo.name

/-- Variants 1 and 2 `RpcHelpers.getVisibleChains` (the two variants'
bodies are textually identical): filter the value list by chain type,
testnet flag, and presence of a mailer address. -/
def getVisibleChains (m : List (Chain × ChainInfo))
    (chainType : Option ChainType) (includesTestNet : Bool) : List ChainInfo :=
  (chainValues m).filter (fun info =>
    (match chainType with
     | none => true
     | some t => decide (info.chainType = t)) &&
    (includesTestNet || !info.isTestNet) &&
    info.mailerAddress.isSome)

/-- Variant 1 `RpcHelpers.getAlchemyRpcUrl`.  The implementation
signature takes `Optional<string> | BlockchainApis`, modelled as a sum;
the single-credential call form is `Sum.inl`. -/
def getAlchemyRpcUrl (m : List (Chain × ChainInfo))
    (apiKeyOrApis : Sum (Option String) BlockchainApis) (chain : Chain) : Option String :=
  match (match apiKeyOrApis with
         | Sum.inl k => k
         | Sum.inr apis => apis.apiKeys.alchemyApiKey) with
  | none => none
  | some alchemyApiKey =>
    if alchemyApiKey = "" then none
    else
      match getChainInfo m chain with
      | none => none
      | some chainInfo =>
        match chainInfo.alchemyNetwork with
        | none => none
        | some network =>
          if network = "" then none
          else some ("https://" ++ network ++ ".g.alchemy.com/v2/" ++ alchemyApiKey)

/-- Variant 1 `RpcHelpers.getAnkrRpcUrl`. -/
def getAnkrRpcUrl (m : List (Chain × ChainInfo))
    (ankrApiKey : Option String) (chain : Chain) : Option String :=
  match ankrApiKey with
  | none => none
  | some key =>
    if key = "" then none
    else
      match getChainInfo m chain with
      | none => none
      | some chainInfo =>
        match chainInfo.ankrNetwork with
        | none => none
        | some network =>
          if network = "" then none
          else some ("https://rpc.ankr.com/" ++ network ++ "/" ++ key)

/-- Variant 1 `RpcHelpers.getMetamaskRpcUrl`. -/
def getMetamaskRpcUrl (m : List (Chain × ChainInfo))
    (metamaskApiKey : Option String) (chain : Chain) : Option String :=
  match metamaskApiKey with
  | none => none
  | some key =>
    if key = "" then none
    else
      match getChainInfo m chain with
      | none => none
      | some chainInfo =>
        match chainInfo.metamaskNetwork with
        | none => none
        | some network =>
          if network = "" then none
          else some ("https://" ++ network ++ ".infura.io/v3/" ++ key)

/-- Variant 1 `RpcHelpers.getQuickNodeRpcUrl`: the credential must split
at a single colon into two non-empty parts. -/
def getQuickNodeRpcUrl (m : List (Chain × ChainInfo))
    (quicknodeApiKey : Option String) (chain : Chain) : Option String :=
  match quicknodeApiKey with
  | none => none
  | some key =>
    if key = "" then none
    else
      let parts := splitColon key
      if parts.length ≠ 2 ∨ parts.getD 0 "" = "" ∨ parts.getD 1 "" = "" then none
      else
        let subdomain := parts.getD 0 ""
        let token := parts.getD 1 ""
        match getChainInfo m chain with
        | none => none
        | some chainInfo =>
          match chainInfo.quicknodeNetwork with
          | none => none
          | some network =>
            if network = "" then none
            else some ("https://" ++ subdomain ++ "." ++ network ++ ".quiknode.pro/" ++ token ++ "/")

/-- Variant 1 endpoint-argument resolution step of `getRpcUrl`: a string
argument is upper-cased and matched against the known provider names;
anything unrecognized is treated as no preference. -/
def resolveEndpoint : Option EndpointArg → Option RpcEndpoint
  | none => none
  | some (EndpointArg.ofEnum e) => some e
  | some (EndpointArg.ofName s) =>
    match s.toUpper with
    | "ALCHEMY" => some RpcEndpoint.Alchemy
    | "ANKR" => some RpcEndpoint.Ankr
    | "METAMASK" => some RpcEndpoint.Metamask
    | "QUICKNODE" => some RpcEndpoint.QuickNode
    | _ => none

/-- Tail block of variant 1 `RpcHelpers.getRpcUrl`: the fixed priority
cascade QuickNode > Ankr > Metamask > Alchemy, returning the first
truthy URL (named separately here; in the source it is the code that
follows the preferred-endpoint attempt). -/
def rpcPriorityCascade (m : List (Chain × ChainInfo)) (apiKeys : ApiKeys)
    (chain : Chain) : Option String :=
  let quicknodeUrl := getQuickNodeRpcUrl m apiKeys.quicknodeApiKey chain
  if truthyOpt quicknodeUrl then quicknodeUrl
  else
    let ankrUrl := getAnkrRpcUrl m apiKeys.ankrApiKey chain
    if truthyOpt ankrUrl then ankrUrl
    else
      let metamaskUrl := getMetamaskRpcUrl m apiKeys.metamaskApiKey chain
      if truthyOpt metamaskUrl then metamaskUrl
      else
        let alchemyUrl := getAlchemyRpcUrl m (Sum.inl apiKeys.alchemyApiKey) chain
        if truthyOpt alchemyUrl then alchemyUrl
        else none

/-- Variant 1 `RpcHelpers.getRpcUrl`: try the resolved preferred
endpoint first; if its result is falsy, run the fixed priority cascade
QuickNode > Ankr > Metamask > Alchemy. -/
def getRpcUrl (m : List (Chain × ChainInfo)) (apiKeys : ApiKeys)
    (chain : Chain) (endpoint : Option EndpointArg) : Option String :=
  let preferredUrl : Option String :=
    match resolveEndpoint endpoint with
    | some RpcEndpoint.Alchemy => getAlchemyRpcUrl m (Sum.inl apiKeys.alchemyApiKey) chain
    | some RpcEndpoint.Ankr => getAnkrRpcUrl m apiKeys.ankrApiKey chain
    | some RpcEndpoint.Metamask => getMetamaskRpcUrl m apiKeys.metamaskApiKey chain
    | some RpcEndpoint.QuickNode => getQuickNodeRpcUrl m apiKeys.quicknodeApiKey chain
    | none => none
  if truthyOpt preferredUrl then preferredUrl
  else rpcPriorityCascade m apiKeys chain

/-- Variant 1 `RpcHelpers.getExplorerApiUrl`
(`string | BlockchainApis` first argument). -/
def getExplorerApiUrl (m : List (Chain × ChainInfo))
    (apiKeyOrApis : Sum String BlockchainApis) (chain : Chain) : Option String :=
  let etherscanApiKey : String :=
    match apiKeyOrApis with
    | Sum.inl s => s
    | Sum.inr apis => apis.etherscanApiKey
  if etherscanApiKey = "" then none
  else
    match getChainInfo m chain with
    | none => none
    | some chainInfo =>
      if chainInfo.chainType = ChainType.SOLANA then none
      else
        match chainInfo.explorerDomain with
        | none => none
        | some domain =>
          if domain = "" then none
          else some ("https://" ++ domain ++ "/api?apikey=" ++ etherscanApiKey)

/-- Variant 1 `RpcHelpers.getBlockExplorerUrl`. -/
def getBlockExplorerUrl (m : List (Chain × ChainInfo)) (chain : Chain) : Option String :=
  match getChainInfo m chain with
  | none => none
  | some chainInfo =>
    match chainInfo.explorerBrowserDomain with
    | none => none
    | some domain =>
      if domain = "" then none
      else some ("https://" ++ domain)

/-- Variant 2 `RpcHelpers.isEvmChain` (same body as variant 1). -/
def isEvmChainV2 (m : List (Chain × ChainInfo)) (chain : Chain) : Bool :=
  match lookupInfo m chain with
  | some info => decide (info.chainType = ChainType.EVM)
  | none => false

/-- Variant 2 `RpcHelpers.isSolanaChain` (same body as variant 1). -/
def isSolanaChainV2 (m : List (Chain × ChainInfo)) (chain : Chain) : Bool :=
  match lookupInfo m chain with
  | some info => decide (info.chainType = ChainType.SOLANA)
  | none => false

/-- Variant 2 `RpcHelpers.getChainInfo`: throws `Unknown chain: {chain}`
when the identifier is not in the registry. -/
def getChainInfoV2 (m : List (Chain × ChainInfo)) (chain : Chain) : Except String ChainInfo :=
  match lookupInfo m chain with
  | some info => Except.ok info
  | none => Except.error ("Unknown chain: " ++ chain)

/-- Variant 2 `RpcHelpers.getChainId`. -/
def getChainIdV2 (m : List (Chain × ChainInfo)) (chain : Chain) : Except String Int :=
  (getChainInfoV2 m chain).map ChainInfo.chainId

/-- Variant 2 `RpcHelpers.getAlchemyRpcUrl`
(`string | BlockchainApis` first argument). -/
def getAlchemyRpcUrlV2 (m : List (Chain × ChainInfo))
    (apiKeyOrApis : Sum String BlockchainApisV2) (chain : Chain) :
    Except String (Option String) :=
  match (match apiKeyOrApis with
         | Sum.inl s => some s
         | Sum.inr apis => apis.apiKeys.alchemyApiKey) with
  | none => Except.ok none
  | some alchemyApiKey =>
    if alchemyApiKey = "" then Except.ok none
    else
      match getChainInfoV2 m chain with
      | Except.error e => Except.error e
      | Except.ok chainInfo =>
        match chainInfo.alchemyNetwork with
        | none => Except.ok none
        | some network =>
          if network = "" then Except.ok none
          else Except.ok (some ("https://" ++ network ++ ".g.alchemy.com/v2/" ++ alchemyApiKey))

/-- Variant 2 `RpcHelpers.getAnkrRpcUrl`. -/
def getAnkrRpcUrlV2 (m : List (Chain × ChainInfo))
    (ankrApiKey : String) (chain : Chain) : Except String (Option String) :=
  if ankrApiKey = "" then Except.ok none
  else
    match getChainInfoV2 m chain with
    | Except.error e => Except.error e
    | Except.ok chainInfo =>
      match chainInfo.ankrNetwork with
      | none => Except.ok none
      | some network =>
        if network = "" then Except.ok none
        else Except.ok (some ("https://rpc.ankr.com/" ++ network ++ "/" ++ ankrApiKey))

/-- Variant 2 `RpcHelpers.getMetamaskRpcUrl`. -/
def getMetamaskRpcUrlV2 (m : List (Chain × ChainInfo))
    (metamaskApiKey : String) (chain : Chain) : Except String (Option String) :=
  if metamaskApiKey = "" then Except.ok none
  else
    match getChainInfoV2 m chain with
    | Except.error e => Except.error e
    | Except.ok chainInfo =>
      match chainInfo.metamaskNetwork with
      | none => Except.ok none
      | some network =>
        if network = "" then Except.ok none
        else Except.ok (some ("https://" ++ network ++ ".infura.io/v3/" ++ metamaskApiKey))

/-- Tail block of variant 2 `RpcHelpers.getRpcUrl`: the priority cascade
Ankr > Metamask > Alchemy run when no endpoint is specified (named
separately here; in the source it is the code after the endpoint
switch). -/
def rpcPriorityCascadeV2 (m : List (Chain × ChainInfo)) (apiKeys : ApiKeysV2)
    (chain : Chain) : Except String (Option String) :=
  match getAnkrRpcUrlV2 m (apiKeys.ankrApiKey.getD "") chain with
  | Except.error e => Except.error e
  | Except.ok ankrUrl =>
    if truthyOpt ankrUrl then Except.ok ankrUrl
    else
      match getMetamaskRpcUrlV2 m (apiKeys.metamaskApiKey.getD "") chain with
      | Except.error e => Except.error e
      | Except.ok metamaskUrl =>
        if truthyOpt metamaskUrl then Except.ok metamaskUrl
        else
          match getAlchemyRpcUrlV2 m (Sum.inl (apiKeys.alchemyApiKey.getD "")) chain with
          | Except.error e => Except.error e
          | Except.ok alchemyUrl =>
            if truthyOpt alchemyUrl then Except.ok alchemyUrl
            else Except.ok none

/-- Variant 2 `RpcHelpers.getRpcUrl`: a specified endpoint's builder
result is returned directly (no fall-through); with no endpoint, the
priority cascade is Ankr > Metamask > Alchemy.  Missing keys are passed
as `''` (the `?? ''` defaulting in the source). -/
def getRpcUrlV2 (m : List (Chain × ChainInfo)) (apiKeys : ApiKeysV2)
    (chain : Chain) (endpoint : Option RpcEndpointV2) : Except String (Option String) :=
  match endpoint with
  | some RpcEndpointV2.Alchemy =>
    getAlchemyRpcUrlV2 m (Sum.inl (apiKeys.alchemyApiKey.getD "")) chain
  | some RpcEndpointV2.Ankr =>
    getAnkrRpcUrlV2 m (apiKeys.ankrApiKey.getD "") chain
  | some RpcEndpointV2.Metamask =>
    getMetamaskRpcUrlV2 m (apiKeys.metamaskApiKey.getD "") chain
  | none => rpcPriorityCascadeV2 m apiKeys chain

/-- Variant 2 `RpcHelpers.getExplorerApiUrl`. -/
def getExplorerApiUrlV2 (m : List (Chain × ChainInfo))
    (apiKeyOrApis : Sum String BlockchainApisV2) (chain : Chain) :
    Except String (Option String) :=
  let etherscanApiKey : String :=
    match apiKeyOrApis with
    | Sum.inl s => s
    | Sum.inr apis => apis.etherscanApiKey
  if etherscanApiKey = "" then Except.ok none
  else
    match getChainInfoV2 m chain with
    | Except.error e => Except.error e
    | Except.ok chainInfo =>
      if chainInfo.chainType = ChainType.SOLANA then Except.ok none
      else
        match chainInfo.explorerDomain with
        | none => Except.ok none
        | some domain =>
          if domain = "" then Except.ok none
          else Except.ok (some ("https://" ++ domain ++ "/api?apikey=" ++ etherscanApiKey))

/-- Modelled from the spec: Ethereum mainnet registry record (id 1,
Alchemy slug `eth-mainnet`, Ankr slug `eth`, Infura slug `mainnet`,
QuickNode slug `ethereum-mainnet`, Etherscan domains, USDC address are
the concrete values fixed by spec §8 and the repository tests and doc
comments). -/
def ethMainnetInfo : ChainInfo :=
  ⟨"eth_mainnet", ChainType.EVM, 1, "Ethereum",
   some "eth-mainnet", some "eth", some "mainnet", some "ethereum-mainnet",
   some "api.etherscan.io", some "etherscan.io",
   some "0xA0b86991c6218b36c1d19D4a2e9Eb0cE3606eB48", false,
   some "0x6C4bC93b77e3c17Be0A238a2EcC9F1B39a25ec24", some 17500000⟩

/-- Modelled from the spec: Ethereum Sepolia testnet record. -/
def ethSepoliaInfo : ChainInfo :=
  ⟨"eth_sepolia", ChainType.EVM, 11155111, "Ethereum Sepolia",
   some "eth-sepolia", some "eth_sepolia", some "sepolia", some "ethereum-sepolia",
   some "api-sepolia.etherscan.io", some "sepolia.etherscan.io",
   none, true,
   some "0x1b24cE4AbD4a32Ef2Ae9b3e2cdB454d27Cbf0BcC", none⟩

/-- Modelled from the spec: Polygon mainnet record (id 137, Ankr slug
`polygon`, Infura slug `polygon-mainnet`, USDC address from spec §8). -/
def polygonMainnetInfo : ChainInfo :=
  ⟨"polygon_mainnet", ChainType.EVM, 137, "Polygon",
   some "polygon-mainnet", some "polygon", some "polygon-mainnet", some "matic",
   some "api.polygonscan.com", some "polygonscan.com",
   some "0x2791Bca1f2de4661ED88A30C99A7a9449Aa84174", false,
   none, none⟩

/-- Modelled from the spec: Base mainnet record; per the repository tests
Base has no Metamask/Infura slug. -/
def baseMainnetInfo : ChainInfo :=
  ⟨"base_mainnet", ChainType.EVM, 8453, "Base",
   some "base-mainnet", some "base", none, none,
   some "api.basescan.org", some "basescan.org",
   none, false,
   some "0x3A67dF8aC41FB259dB7aBb6E2e9c1F3E47Bf7dE1", none⟩

/-- Modelled from the spec: Monad mainnet record; per the repository
tests no RPC provider carries Monad, so every provider slug is absent. -/
def monadMainnetInfo : ChainInfo :=
  ⟨"monad_mainnet", ChainType.EVM, 143, "Monad",
   none, none, none, none,
   none, none,
   none, false,
   none, none⟩

/-- Modelled from the spec: Solana mainnet record (synthetic id -101, no
explorer API domain, USDC mint from spec §8). -/
def solanaMainnetInfo : ChainInfo :=
  ⟨"solana_mainnet", ChainType.SOLANA, -101, "Solana",
   some "solana-mainnet", some "solana", none, some "solana-mainnet",
   none, some "explorer.solana.com",
   some "EPjFWdd5AufqSSqeM2qN1xzybapC8G4wEGGkZwyTDt1v", false,
   some "9hFtYBYmBJCVguRYs9pBTWKYAFoKHTAcb6uSUhSGRjnv", none⟩

/-- Modelled from the spec: the static registry `CHAIN_INFO_MAP` lives in
`chain-info-map.ts`, which is not among the provided sources.  The
entries are faithful to the concrete values fixed by the spec (§3, §8)
and by the repository tests and doc comments; mailer addresses and
starting blocks are placeholders, since the spec only constrains their
presence, not their contents. -/
def CHAIN_INFO_MAP : List (Chain × ChainInfo) :=
  [ ("eth_mainnet", ethMainnetInfo),
    ("eth_sepolia", ethSepoliaInfo),
    ("polygon_mainnet", polygonMainnetInfo),
    ("base_mainnet", baseMainnetInfo),
    ("monad_mainnet", monadMainnetInfo),
    ("solana_mainnet", solanaMainnetInfo) ]

/-- Membership in the value list follows from a successful key lookup. -/
theorem lookupInfo_mem {m : List (Chain × ChainInfo)} {c : Chain} {i : ChainInfo}
    (h : lookupInfo m c = some i) : i ∈ chainValues m := by
  induction m with
  | nil => simp [lookupInfo] at h
  | cons hd tl ih =>
    obtain ⟨k, v⟩ := hd
    by_cases hk : k = c
    · simp [lookupInfo, hk] at h
      simp [chainValues, h]
    · simp [lookupInfo, hk] at h
      have := ih h
      simp [chainValues] at this ⊢
      exact Or.inr this

/-- First-match search by a unique numeric id finds exactly the member
record carrying that id. -/
theorem find?_chainId_eq_of_pairwise {l : List ChainInfo} {i : ChainInfo}
    (hu : l.Pairwise (fun a b => a.chainId ≠ b.chainId)) (hm : i ∈ l) :
    l.find? (fun info => decide (info.chainId = i.chainId)) = some i := by
  induction l with
  | nil => simp at hm
  | cons hd tl ih =>
    rcases List.mem_cons.mp hm with rfl | hm'
    · simp [List.find?]
    · have hne : hd.chainId ≠ i.chainId := (List.pairwise_cons.mp hu).1 i hm'
      have : (fun info => decide (info.chainId = i.chainId)) hd = false := by
        simp [hne]
      rw [List.find?_cons_of_neg _ (by simp [hne])]
      exact ih (List.pairwise_cons.mp hu).2 hm'

/-- The visibility filter, written as the spec and claim C3 word it: the
family filter is absent or matches, testnets are included or the record
is not a testnet, and the mailer contract address is present. -/
def visibleChainsSpec (m : List (Chain × ChainInfo))
    (chainType : Option ChainType) (includesTestNet : Bool) : List ChainInfo :=
  (chainValues m).filter (fun info =>
    decide ((chainType = none ∨ chainType = some info.chainType) ∧
            (includesTestNet = true ∨ info.isTestNet = false) ∧
            info.mailerAddress ≠ none))

/-- Claim C3: for every family filter and every includeTestNet flag,
`getVisibleChains` returns exactly the registry records (in registry
insertion order) whose family matches the filter when one is given,
which pass the testnet filter, and whose mailer contract address is
present. -/
theorem getVisibleChains_exact_filter (m : List (Chain × ChainInfo))
    (chainType : Option ChainType) (includesTestNet : Bool) :
    getVisibleChains m chainType includesTestNet =
      visibleChainsSpec m chainType includesTestNet := by
  unfold getVisibleChains visibleChainsSpec
  apply List.filter_congr
  intro a _
  rcases chainType with _ | t
  · cases includesTestNet <;> cases hT : a.isTestNet <;>
      cases hM : a.mailerAddress <;> simp [hT, hM]
  · by_cases hc : a.chainType = t <;>
      cases includesTestNet <;> cases hT : a.isTestNet <;>
      cases hM : a.mailerAddress <;> simp [hT, hM, hc] <;>
      exact Ne.symm hc

/-- Claim C6: every provider URL builder, in both variants, yields an
absent value whenever the supplied credential is absent or empty,
whatever the chain. -/
theorem builders_absent_on_empty_credential (m : List (Chain × ChainInfo)) (c : Chain) :
    getAlchemyRpcUrl m (Sum.inl none) c = none ∧
    getAlchemyRpcUrl m (Sum.inl (some "")) c = none ∧
    getAnkrRpcUrl m none c = none ∧
    getAnkrRpcUrl m (some "") c = none ∧
    getMetamaskRpcUrl m none c = none ∧
    getMetamaskRpcUrl m (some "") c = none ∧
    getQuickNodeRpcUrl m none c = none ∧
    getQuickNodeRpcUrl m (some "") c = none ∧
    getAlchemyRpcUrlV2 m (Sum.inl "") c = Except.ok none ∧
    getAnkrRpcUrlV2 m "" c = Except.ok none ∧
    getMetamaskRpcUrlV2 m "" c = Except.ok none :=
  ⟨rfl, rfl, rfl, rfl, rfl, rfl, rfl, rfl, rfl, rfl, rfl⟩

/-- Claim C8: for any family filter, the visible-chain list computed
without testnets is a sublist (hence a subset, in the same registry
order) of the one computed with testnets. -/
theorem getVisibleChains_testnet_superset (m : List (Chain × ChainInfo))
    (chainType : Option ChainType) :
    (getVisibleChains m chainType false).Sublist (getVisibleChains m chainType true) ∧
    ∀ i, i ∈ getVisibleChains m chainType false → i ∈ getVisibleChains m chainType true := by
  have hsub : (getVisibleChains m chainType false).Sublist (getVisibleChains m chainType true) := by
    unfold getVisibleChains
    apply List.monotone_filter_right
    intro a ha
    simp only [Bool.and_eq_true] at ha ⊢
    exact ⟨⟨ha.1.1, by simp⟩, ha.2⟩
  exact ⟨hsub, fun i hi => hsub.subset hi⟩

/-- Witness for claim C8 at the spec-modelled registry: the mainnet-only
list is a sublist of the full list, and the Ethereum mainnet record in
the former also appears in the latter. -/
theorem getVisibleChains_testnet_superset_witness :
    (getVisibleChains CHAIN_INFO_MAP none false).Sublist
      (getVisibleChains CHAIN_INFO_MAP none true) ∧
    ethMainnetInfo ∈ getVisibleChains CHAIN_INFO_MAP none false ∧
    ethMainnetInfo ∈ getVisibleChains CHAIN_INFO_MAP none true :=
  ⟨(getVisibleChains_testnet_superset CHAIN_INFO_MAP none).1,
   by decide,
   (getVisibleChains_testnet_superset CHAIN_INFO_MAP none).2 ethMainnetInfo (by decide)⟩

/-- Claim C9: for an identifier outside the registry, `isEvmChain` and
`isSolanaChain` both answer `false` (they never fail), in the defensive
variant and in the fail-fast variant alike. -/
theorem isChain_false_on_unrecognized (m : List (Chain × ChainInfo)) (c : Chain)
    (h : lookupInfo m c = none) :
    isEvmChain m c = false ∧ isSolanaChain m c = false ∧
    isEvmChainV2 m c = false ∧ isSolanaChainV2 m c = false := by
  simp [isEvmChain, isSolanaChain, isEvmChainV2, isSolanaChainV2, h]

/-- Witness for claim C9: the identifier `unknown_chain` is not in the
spec-modelled registry and every membership check answers `false`. -/
theorem isChain_false_on_unrecognized_witness :
    lookupInfo CHAIN_INFO_MAP "unknown_chain" = none ∧
    (isEvmChain CHAIN_INFO_MAP "unknown_chain" = false ∧
     isSolanaChain CHAIN_INFO_MAP "unknown_chain" = false ∧
     isEvmChainV2 CHAIN_INFO_MAP "unknown_chain" = false ∧
     isSolanaChainV2 CHAIN_INFO_MAP "unknown_chain" = false) :=
  ⟨by decide, isChain_false_on_unrecognized CHAIN_INFO_MAP "unknown_chain" (by decide)⟩

/-- Claim C4: for a registry whose numeric ids are pairwise distinct
(the spec's uniqueness invariant for `numericId`), looking the id
delivered by `getChainId` back up with `getChainInfoById` returns the
same record as `getChainInfo` on the original chain. -/
theorem chainId_roundtrip (m : List (Chain × ChainInfo)) (c : Chain) (cid : Int)
    (hu : (chainValues m).Pairwise (fun a b => a.chainId ≠ b.chainId))
    (h : getChainId m c = some cid) :
    getChainInfoById m cid = getChainInfo m c := by
  unfold getChainId at h
  rcases hli : getChainInfo m c with _ | i
  · rw [hli] at h; simp at h
  · rw [hli] at h
    simp only [Option.map_some'] at h
    obtain rfl : cid = i.chainId := (Option.some.inj h).symm
    unfold getChainInfo at hli
    unfold getChainInfoById
    rw [find?_chainId_eq_of_pairwise hu (lookupInfo_mem hli)]

/-- Witness for claim C4 at the spec-modelled registry: Ethereum mainnet
has id 1 and the round trip through `getChainInfoById` recovers it. -/
theorem chainId_roundtrip_witness :
    (chainValues CHAIN_INFO_MAP).Pairwise (fun a b => a.chainId ≠ b.chainId) ∧
    getChainId CHAIN_INFO_MAP "eth_mainnet" = some 1 ∧
    getChainInfoById CHAIN_INFO_MAP 1 = getChainInfo CHAIN_INFO_MAP "eth_mainnet" :=
  ⟨by decide, by decide,
   chainId_roundtrip CHAIN_INFO_MAP "eth_mainnet" 1 (by decide) (by decide)⟩

/-- Well-formedness of a QuickNode credential as the spec words it:
exactly two non-empty parts separated by a single colon. -/
def quickNodeKeyWellFormed (key : String) : Bool :=
  match splitColon key with
  | [a, b] => !(decide (a = "")) && !(decide (b = ""))
  | _ => false

/-- Claim C5: the QuickNode builder yields absent for every credential
that is not exactly two non-empty colon-separated parts, and for a
well-formed `subdomain:token` credential on a chain with a non-empty
QuickNode slug it yields the documented URL. -/
theorem getQuickNodeRpcUrl_spec (m : List (Chain × ChainInfo)) (c : Chain) :
    getQuickNodeRpcUrl m none c = none ∧
    (∀ key, quickNodeKeyWellFormed key = false →
      getQuickNodeRpcUrl m (some key) c = none) ∧
    (∀ key sub tok i slug, splitColon key = [sub, tok] → sub ≠ "" → tok ≠ "" →
      getChainInfo m c = some i → i.quicknodeNetwork = some slug → slug ≠ "" →
      getQuickNodeRpcUrl m (some key) c =
        some ("https://" ++ sub ++ "." ++ slug ++ ".quiknode.pro/" ++ tok ++ "/")) := by
  refine ⟨rfl, ?_, ?_⟩
  · intro key hnw
    unfold getQuickNodeRpcUrl
    by_cases hk : key = ""
    · simp [hk]
    · simp only [if_neg hk]
      unfold quickNodeKeyWellFormed at hnw
      rcases hp : splitColon key with _ | ⟨a, _ | ⟨b, _ | ⟨x, xs⟩⟩⟩ <;>
        rw [hp] at hnw <;> simp at hnw ⊢
      by_cases h1 : a = ""
      · simp [h1]
      · simp [hnw h1]
  · intro key sub tok i slug hsplit hsub htok hinfo hslug hslugne
    have hk : ¬ key = "" := by
      intro h
      subst h
      have : ([""] : List String) = [sub, tok] := hsplit
      simp at this
    unfold getQuickNodeRpcUrl
    simp only [if_neg hk, hsplit, hinfo, hslug]
    simp [hsub, htok, hslugne]

/-- Witness for claim C5: a malformed credential yields absent, and the
well-formed credential `my-endpoint:abc123token` on Ethereum mainnet
yields the QuickNode URL from the source doc comment. -/
theorem getQuickNodeRpcUrl_spec_witness :
    quickNodeKeyWellFormed "no-colon-here" = false ∧
    getQuickNodeRpcUrl CHAIN_INFO_MAP (some "no-colon-here") "eth_mainnet" = none ∧
    splitColon "my-endpoint:abc123token" = ["my-endpoint", "abc123token"] ∧
    getChainInfo CHAIN_INFO_MAP "eth_mainnet" = some ethMainnetInfo ∧
    ethMainnetInfo.quicknodeNetwork = some "ethereum-mainnet" ∧
    getQuickNodeRpcUrl CHAIN_INFO_MAP (some "my-endpoint:abc123token") "eth_mainnet" =
      some "https://my-endpoint.ethereum-mainnet.quiknode.pro/abc123token/" :=
  ⟨by decide,
   (getQuickNodeRpcUrl_spec CHAIN_INFO_MAP "eth_mainnet").2.1 "no-colon-here" (by decide),
   by decide, by decide, by decide,
   (getQuickNodeRpcUrl_spec CHAIN_INFO_MAP "eth_mainnet").2.2 "my-endpoint:abc123token"
     "my-endpoint" "abc123token" ethMainnetInfo "ethereum-mainnet"
     (by decide) (by decide) (by decide) (by decide) (by decide) (by decide)⟩

/-- Claim C7: for a recognized chain and a non-empty credential, every
builder signals an unsupported chain/provider pair (a missing provider
slug in the record) by an absent value: `none` in the defensive variant
and a successful `Except.ok none` (never an error) in the fail-fast
variant. -/
theorem builders_absent_on_missing_slug (m : List (Chain × ChainInfo))
    (key : String) (c : Chain) (i : ChainInfo)
    (hinfo : lookupInfo m c = some i) (hkey : key ≠ "") :
    (i.ankrNetwork = none → getAnkrRpcUrl m (some key) c = none) ∧
    (i.metamaskNetwork = none → getMetamaskRpcUrl m (some key) c = none) ∧
    (i.alchemyNetwork = none → getAlchemyRpcUrl m (Sum.inl (some key)) c = none) ∧
    (i.quicknodeNetwork = none → getQuickNodeRpcUrl m (some key) c = none) ∧
    (i.ankrNetwork = none → getAnkrRpcUrlV2 m key c = Except.ok none) ∧
    (i.metamaskNetwork = none → getMetamaskRpcUrlV2 m key c = Except.ok none) ∧
    (i.alchemyNetwork = none → getAlchemyRpcUrlV2 m (Sum.inl key) c = Except.ok none) := by
  refine ⟨?_, ?_, ?_, ?_, ?_, ?_, ?_⟩ <;> intro h
  · simp [getAnkrRpcUrl, hkey, getChainInfo, hinfo, h]
  · simp [getMetamaskRpcUrl, hkey, getChainInfo, hinfo, h]
  · simp [getAlchemyRpcUrl, hkey, getChainInfo, hinfo, h]
  · unfold getQuickNodeRpcUrl
    simp only [if_neg hkey]
    split
    · rfl
    · simp [getChainInfo, hinfo, h]
  · simp [getAnkrRpcUrlV2, hkey, getChainInfoV2, hinfo, h]
  · simp [getMetamaskRpcUrlV2, hkey, getChainInfoV2, hinfo, h]
  · simp [getAlchemyRpcUrlV2, hkey, getChainInfoV2, hinfo, h]

/-- Witness for claim C7 at the spec-modelled registry: Monad mainnet is
recognized but carries no provider slug, and with a non-empty credential
every builder returns an absent value rather than failing. -/
theorem builders_absent_on_missing_slug_witness :
    lookupInfo CHAIN_INFO_MAP "monad_mainnet" = some monadMainnetInfo ∧
    ("test-api-key" : String) ≠ "" ∧
    monadMainnetInfo.ankrNetwork = none ∧
    monadMainnetInfo.metamaskNetwork = none ∧
    getAnkrRpcUrl CHAIN_INFO_MAP (some "test-api-key") "monad_mainnet" = none ∧
    getMetamaskRpcUrlV2 CHAIN_INFO_MAP "test-api-key" "monad_mainnet" = Except.ok none :=
  ⟨by decide, by decide, by decide, by decide,
   (builders_absent_on_missing_slug CHAIN_INFO_MAP "test-api-key" "monad_mainnet"
      monadMainnetInfo (by decide) (by decide)).1 (by decide),
   (builders_absent_on_missing_slug CHAIN_INFO_MAP "test-api-key" "monad_mainnet"
      monadMainnetInfo (by decide) (by decide)).2.2.2.2.2.1 (by decide)⟩

/-- Claim C2, amended: in the defensive variant `getExplorerApiUrl`
returns absent exactly when the credential is empty, the chain is
unrecognized, the chain's family is Solana, or the chain's explorer API
domain is absent, and otherwise returns
`https://{explorerApiDomain}/api?apikey={credential}`; in the fail-fast
variant the same holds except that a non-empty credential with an
unrecognized chain raises `Unknown chain` instead of returning absent.
The registry hypothesis rules out an empty-string stored domain, which
the spec's optional-string data model does not produce. -/
theorem getExplorerApiUrl_characterization (m : List (Chain × ChainInfo))
    (key : String) (c : Chain)
    (hwf : ∀ i ∈ chainValues m, i.explorerDomain ≠ some "") :
    (getExplorerApiUrl m (Sum.inl key) c = none ↔
      key = "" ∨ lookupInfo m c = none ∨
      ∃ i, lookupInfo m c = some i ∧
        (i.chainType = ChainType.SOLANA ∨ i.explorerDomain = none)) ∧
    (∀ i d, lookupInfo m c = some i → key ≠ "" → i.chainType ≠ ChainType.SOLANA →
      i.explorerDomain = some d →
      getExplorerApiUrl m (Sum.inl key) c =
        some ("https://" ++ d ++ "/api?apikey=" ++ key)) ∧
    (getExplorerApiUrlV2 m (Sum.inl key) c = Except.ok none ↔
      key = "" ∨
      ∃ i, lookupInfo m c = some i ∧
        (i.chainType = ChainType.SOLANA ∨ i.explorerDomain = none)) ∧
    (∀ i d, lookupInfo m c = some i → key ≠ "" → i.chainType ≠ ChainType.SOLANA →
      i.explorerDomain = some d →
      getExplorerApiUrlV2 m (Sum.inl key) c =
        Except.ok (some ("https://" ++ d ++ "/api?apikey=" ++ key))) ∧
    (key ≠ "" → lookupInfo m c = none →
      getExplorerApiUrlV2 m (Sum.inl key) c =
        Except.error ("Unknown chain: " ++ c)) := by
  refine ⟨?_, ?_, ?_, ?_, ?_⟩
  · by_cases hk : key = ""
    · simp [getExplorerApiUrl, hk]
    · rcases hli : lookupInfo m c with _ | i
      · simp [getExplorerApiUrl, getChainInfo, hk, hli]
      · by_cases hs : i.chainType = ChainType.SOLANA
        · simp [getExplorerApiUrl, getChainInfo, hk, hli, hs]
        · rcases hd : i.explorerDomain with _ | d
          · simp [getExplorerApiUrl, getChainInfo, hk, hli, hs, hd]
          · have hd' : d ≠ "" := by
              intro h
              exact hwf i (lookupInfo_mem hli) (by rw [hd, h])
            simp [getExplorerApiUrl, getChainInfo, hk, hli, hs, hd, hd']
  · intro i d hli hk hs hd
    have hd' : d ≠ "" := by
      intro h
      exact hwf i (lookupInfo_mem hli) (by rw [hd, h])
    simp [getExplorerApiUrl, getChainInfo, hk, hli, hs, hd, hd']
  · by_cases hk : key = ""
    · simp [getExplorerApiUrlV2, hk]
    · rcases hli : lookupInfo m c with _ | i
      · simp [getExplorerApiUrlV2, getChainInfoV2, hk, hli]
      · by_cases hs : i.chainType = ChainType.SOLANA
        · simp [getExplorerApiUrlV2, getChainInfoV2, hk, hli, hs]
        · rcases hd : i.explorerDomain with _ | d
          · simp [getExplorerApiUrlV2, getChainInfoV2, hk, hli, hs, hd]
          · have hd' : d ≠ "" := by
              intro h
              exact hwf i (lookupInfo_mem hli) (by rw [hd, h])
            simp [getExplorerApiUrlV2, getChainInfoV2, hk, hli, hs, hd, hd']
  · intro i d hli hk hs hd
    have hd' : d ≠ "" := by
      intro h
      exact hwf i (lookupInfo_mem hli) (by rw [hd, h])
    simp [getExplorerApiUrlV2, getChainInfoV2, hk, hli, hs, hd, hd']
  · intro hk hli
    simp [getExplorerApiUrlV2, getChainInfoV2, hk, hli]

/-- Witness for claim C2 at the spec-modelled registry: no stored domain
is the empty string, and Ethereum mainnet with credential `test-api-key`
yields the Etherscan API URL from the spec's concrete cases. -/
theorem getExplorerApiUrl_characterization_witness :
    (∀ i ∈ chainValues CHAIN_INFO_MAP, i.explorerDomain ≠ some "") ∧
    lookupInfo CHAIN_INFO_MAP "eth_mainnet" = some ethMainnetInfo ∧
    getExplorerApiUrl CHAIN_INFO_MAP (Sum.inl "test-api-key") "eth_mainnet" =
      some "https://api.etherscan.io/api?apikey=test-api-key" ∧
    getExplorerApiUrlV2 CHAIN_INFO_MAP (Sum.inl "test-api-key") "eth_mainnet" =
      Except.ok (some "https://api.etherscan.io/api?apikey=test-api-key") :=
  ⟨by decide, by decide,
   (getExplorerApiUrl_characterization CHAIN_INFO_MAP "test-api-key" "eth_mainnet"
      (by decide)).2.1 ethMainnetInfo "api.etherscan.io"
     (by decide) (by decide) (by decide) (by decide),
   (getExplorerApiUrl_characterization CHAIN_INFO_MAP "test-api-key" "eth_mainnet"
      (by decide)).2.2.2.1 ethMainnetInfo "api.etherscan.io"
     (by decide) (by decide) (by decide) (by decide)⟩

/-- Counterexample to claim C2 as stated: the fail-fast variant's
`getExplorerApiUrl`, called with the non-empty credential `test-api-key`
and the unrecognized chain `unknown_chain`, raises `Unknown chain`
rather than returning an absent value. -/
theorem getExplorerApiUrlV2_unrecognized_raises :
    getExplorerApiUrlV2 CHAIN_INFO_MAP (Sum.inl "test-api-key") "unknown_chain" =
      Except.error "Unknown chain: unknown_chain" ∧
    getExplorerApiUrlV2 CHAIN_INFO_MAP (Sum.inl "test-api-key") "unknown_chain" ≠
      Except.ok none :=
  ⟨rfl, fun h => Except.noConfusion h⟩

/-- The provider attempt made by variant 1 `getRpcUrl` for a given
endpoint: each enum value routed to its builder with the matching
credential field, exactly as in the preferred-endpoint switch. -/
def attemptEndpoint (m : List (Chain × ChainInfo)) (apiKeys : ApiKeys)
    (chain : Chain) : RpcEndpoint → Option String
  | RpcEndpoint.Alchemy => getAlchemyRpcUrl m (Sum.inl apiKeys.alchemyApiKey) chain
  | RpcEndpoint.Ankr => getAnkrRpcUrl m apiKeys.ankrApiKey chain
  | RpcEndpoint.Metamask => getMetamaskRpcUrl m apiKeys.metamaskApiKey chain
  | RpcEndpoint.QuickNode => getQuickNodeRpcUrl m apiKeys.quicknodeApiKey chain

/-- The fixed provider priority order of variant 1 `getRpcUrl`. -/
def providerPriorityOrder : List RpcEndpoint :=
  [RpcEndpoint.QuickNode, RpcEndpoint.Ankr, RpcEndpoint.Metamask, RpcEndpoint.Alchemy]

/-- First truthy URL in a list of optional URLs, absent if none is. -/
def firstTruthyUrl : List (Option String) → Option String
  | [] => none
  | x :: xs => if truthyOpt x then x else firstTruthyUrl xs

/-- With no endpoint preference, variant 1 `getRpcUrl` is exactly the
priority cascade. -/
theorem getRpcUrl_none_eq_cascade (m : List (Chain × ChainInfo))
    (apiKeys : ApiKeys) (chain : Chain) :
    getRpcUrl m apiKeys chain none = rpcPriorityCascade m apiKeys chain := rfl

/-- The priority cascade is the first truthy attempt along the fixed
provider priority order. -/
theorem rpcPriorityCascade_eq_firstTruthy (m : List (Chain × ChainInfo))
    (apiKeys : ApiKeys) (chain : Chain) :
    rpcPriorityCascade m apiKeys chain =
      firstTruthyUrl (providerPriorityOrder.map (attemptEndpoint m apiKeys chain)) := rfl

/-- Claim C1, amended: in the four-provider variant, when the preferred
provider's attempt yields absent, `getRpcUrl` does not return absent
immediately but falls through to the fixed priority order
QuickNode > Ankr > Metamask > Alchemy and returns its first truthy URL
(the same result as a call with no preference); in the three-provider
variant, a specified endpoint's builder result is returned directly,
with no fall-through. -/
theorem getRpcUrl_preferred_absent_falls_through (m : List (Chain × ChainInfo))
    (apiKeys : ApiKeys) (chain : Chain) (e : RpcEndpoint)
    (h : attemptEndpoint m apiKeys chain e = none) :
    getRpcUrl m apiKeys chain (some (EndpointArg.ofEnum e)) =
      firstTruthyUrl (providerPriorityOrder.map (attemptEndpoint m apiKeys chain)) ∧
    getRpcUrl m apiKeys chain (some (EndpointArg.ofEnum e)) =
      getRpcUrl m apiKeys chain none ∧
    (∀ (apiKeys2 : ApiKeysV2) (c2 : Chain),
      getRpcUrlV2 m apiKeys2 c2 (some RpcEndpointV2.Alchemy) =
        getAlchemyRpcUrlV2 m (Sum.inl (apiKeys2.alchemyApiKey.getD "")) c2 ∧
      getRpcUrlV2 m apiKeys2 c2 (some RpcEndpointV2.Ankr) =
        getAnkrRpcUrlV2 m (apiKeys2.ankrApiKey.getD "") c2 ∧
      getRpcUrlV2 m apiKeys2 c2 (some RpcEndpointV2.Metamask) =
        getMetamaskRpcUrlV2 m (apiKeys2.metamaskApiKey.getD "") c2) := by
  have hpref : getRpcUrl m apiKeys chain (some (EndpointArg.ofEnum e)) =
      rpcPriorityCascade m apiKeys chain := by
    cases e with
    | Alchemy =>
      have h' : getAlchemyRpcUrl m (Sum.inl apiKeys.alchemyApiKey) chain = none := h
      simp [getRpcUrl, resolveEndpoint, h', truthyOpt]
    | Ankr =>
      have h' : getAnkrRpcUrl m apiKeys.ankrApiKey chain = none := h
      simp [getRpcUrl, resolveEndpoint, h', truthyOpt]
    | Metamask =>
      have h' : getMetamaskRpcUrl m apiKeys.metamaskApiKey chain = none := h
      simp [getRpcUrl, resolveEndpoint, h', truthyOpt]
    | QuickNode =>
      have h' : getQuickNodeRpcUrl m apiKeys.quicknodeApiKey chain = none := h
      simp [getRpcUrl, resolveEndpoint, h', truthyOpt]
  refine ⟨hpref.trans (rpcPriorityCascade_eq_firstTruthy m apiKeys chain), ?_, ?_⟩
  · rw [hpref, getRpcUrl_none_eq_cascade]
  · intro apiKeys2 c2
    exact ⟨rfl, rfl, rfl⟩

/-- Witness for claim C1 at the spec-modelled registry: with only an
Ankr key and preferred provider Alchemy (whose attempt is absent), the
call falls through and returns the Ankr URL. -/
theorem getRpcUrl_preferred_absent_falls_through_witness :
    attemptEndpoint CHAIN_INFO_MAP ⟨none, some "test-ankr-key", none, none⟩
      "eth_mainnet" RpcEndpoint.Alchemy = none ∧
    getRpcUrl CHAIN_INFO_MAP ⟨none, some "test-ankr-key", none, none⟩
      "eth_mainnet" (some (EndpointArg.ofEnum RpcEndpoint.Alchemy)) =
      some "https://rpc.ankr.com/eth/test-ankr-key" ∧
    getRpcUrl CHAIN_INFO_MAP ⟨none, some "test-ankr-key", none, none⟩
      "eth_mainnet" (some (EndpointArg.ofEnum RpcEndpoint.Alchemy)) =
      firstTruthyUrl (providerPriorityOrder.map
        (attemptEndpoint CHAIN_INFO_MAP ⟨none, some "test-ankr-key", none, none⟩
          "eth_mainnet")) :=
  ⟨by decide, by decide,
   (getRpcUrl_preferred_absent_falls_through CHAIN_INFO_MAP
      ⟨none, some "test-ankr-key", none, none⟩ "eth_mainnet" RpcEndpoint.Alchemy
      (by decide)).1⟩

/-- Counterexample to claim C1 as stated: in the three-provider variant,
with only an Alchemy key and preferred provider Ankr (whose attempt
yields absent because the Ankr credential is missing), `getRpcUrl`
returns absent immediately, although the priority cascade (and hence a
fall-through) would have produced the Alchemy URL. -/
theorem getRpcUrlV2_no_fallthrough_counterexample :
    getRpcUrlV2 CHAIN_INFO_MAP ⟨some "test-alchemy-key", none, none⟩ "eth_mainnet"
      (some RpcEndpointV2.Ankr) = Except.ok none ∧
    getRpcUrlV2 CHAIN_INFO_MAP ⟨some "test-alchemy-key", none, none⟩ "eth_mainnet"
      none = Except.ok (some "https://eth-mainnet.g.alchemy.com/v2/test-alchemy-key") ∧
    getAlchemyRpcUrlV2 CHAIN_INFO_MAP (Sum.inl "test-alchemy-key") "eth_mainnet" =
      Except.ok (some "https://eth-mainnet.g.alchemy.com/v2/test-alchemy-key") :=
  ⟨rfl, rfl, rfl⟩

/-- Variant 1 cascade results come from one of the four builders. -/
theorem rpcPriorityCascade_eq_some (m : List (Chain × ChainInfo))
    (apiKeys : ApiKeys) (chain : Chain) (url : String)
    (h : rpcPriorityCascade m apiKeys chain = some url) :
    getQuickNodeRpcUrl m apiKeys.quicknodeApiKey chain = some url ∨
    getAnkrRpcUrl m apiKeys.ankrApiKey chain = some url ∨
    getMetamaskRpcUrl m apiKeys.metamaskApiKey chain = some url ∨
    getAlchemyRpcUrl m (Sum.inl apiKeys.alchemyApiKey) chain = some url := by
  simp only [rpcPriorityCascade] at h
  by_cases h1 : truthyOpt (getQuickNodeRpcUrl m apiKeys.quicknodeApiKey chain)
  · rw [if_pos h1] at h
    exact Or.inl h
  · rw [if_neg h1] at h
    by_cases h2 : truthyOpt (getAnkrRpcUrl m apiKeys.ankrApiKey chain)
    · rw [if_pos h2] at h
      exact Or.inr (Or.inl h)
    · rw [if_neg h2] at h
      by_cases h3 : truthyOpt (getMetamaskRpcUrl m apiKeys.metamaskApiKey chain)
      · rw [if_pos h3] at h
        exact Or.inr (Or.inr (Or.inl h))
      · rw [if_neg h3] at h
        by_cases h4 : truthyOpt (getAlchemyRpcUrl m (Sum.inl apiKeys.alchemyApiKey) chain)
        · rw [if_pos h4] at h
          exact Or.inr (Or.inr (Or.inr h))
        · rw [if_neg h4] at h
          exact Option.noConfusion h

/-- Variant 2 cascade results come from one of the three builders. -/
theorem rpcPriorityCascadeV2_eq_ok_some (m : List (Chain × ChainInfo))
    (apiKeys : ApiKeysV2) (chain : Chain) (url : String)
    (h : rpcPriorityCascadeV2 m apiKeys chain = Except.ok (some url)) :
    getAnkrRpcUrlV2 m (apiKeys.ankrApiKey.getD "") chain = Except.ok (some url) ∨
    getMetamaskRpcUrlV2 m (apiKeys.metamaskApiKey.getD "") chain = Except.ok (some url) ∨
    getAlchemyRpcUrlV2 m (Sum.inl (apiKeys.alchemyApiKey.getD "")) chain =
      Except.ok (some url) := by
  unfold rpcPriorityCascadeV2 at h
  rcases ha : getAnkrRpcUrlV2 m (apiKeys.ankrApiKey.getD "") chain with ea | oa <;>
    rw [ha] at h <;> simp only [] at h
  · exact Except.noConfusion h
  · by_cases hta : truthyOpt oa
    · rw [if_pos hta] at h
      exact Or.inl h
    · rw [if_neg hta] at h
      rcases hm2 : getMetamaskRpcUrlV2 m (apiKeys.metamaskApiKey.getD "") chain
          with em | om <;> rw [hm2] at h <;> simp only [] at h
      · exact Except.noConfusion h
      · by_cases htm : truthyOpt om
        · rw [if_pos htm] at h
          exact Or.inr (Or.inl h)
        · rw [if_neg htm] at h
          rcases hal : getAlchemyRpcUrlV2 m (Sum.inl (apiKeys.alchemyApiKey.getD "")) chain
              with el | ol <;> rw [hal] at h <;> simp only [] at h
          · exact Except.noConfusion h
          · by_cases htl : truthyOpt ol
            · rw [if_pos htl] at h
              exact Or.inr (Or.inr h)
            · rw [if_neg htl] at h
              injection h with h'
              exact Option.noConfusion h'

/-- Claim C10: whenever `getRpcUrl` (either variant) returns a URL, that
URL is the output of one of the per-provider builders applied to the
matching credential field of the bundle and the same chain; the routine
never constructs a URL no individual builder would produce. -/
theorem getRpcUrl_result_from_builders (m : List (Chain × ChainInfo)) (chain : Chain) :
    (∀ (apiKeys : ApiKeys) (endpoint : Option EndpointArg) (url : String),
      getRpcUrl m apiKeys chain endpoint = some url →
        getQuickNodeRpcUrl m apiKeys.quicknodeApiKey chain = some url ∨
        getAnkrRpcUrl m apiKeys.ankrApiKey chain = some url ∨
        getMetamaskRpcUrl m apiKeys.metamaskApiKey chain = some url ∨
        getAlchemyRpcUrl m (Sum.inl apiKeys.alchemyApiKey) chain = some url) ∧
    (∀ (apiKeys2 : ApiKeysV2) (endpoint2 : Option RpcEndpointV2) (url : String),
      getRpcUrlV2 m apiKeys2 chain endpoint2 = Except.ok (some url) →
        getAnkrRpcUrlV2 m (apiKeys2.ankrApiKey.getD "") chain = Except.ok (some url) ∨
        getMetamaskRpcUrlV2 m (apiKeys2.metamaskApiKey.getD "") chain =
          Except.ok (some url) ∨
        getAlchemyRpcUrlV2 m (Sum.inl (apiKeys2.alchemyApiKey.getD "")) chain =
          Except.ok (some url)) := by
  constructor
  · intro apiKeys endpoint url h
    simp only [getRpcUrl] at h
    rcases hre : resolveEndpoint endpoint with _ | e <;> rw [hre] at h
    · by_cases ht : truthyOpt (none : Option String)
      · rw [if_pos ht] at h
        exact Option.noConfusion h
      · rw [if_neg ht] at h
        exact rpcPriorityCascade_eq_some m apiKeys chain url h
    · cases e with
      | Alchemy =>
        by_cases ht : truthyOpt (getAlchemyRpcUrl m (Sum.inl apiKeys.alchemyApiKey) chain)
        · rw [if_pos ht] at h
          exact Or.inr (Or.inr (Or.inr h))
        · rw [if_neg ht] at h
          exact rpcPriorityCascade_eq_some m apiKeys chain url h
      | Ankr =>
        by_cases ht : truthyOpt (getAnkrRpcUrl m apiKeys.ankrApiKey chain)
        · rw [if_pos ht] at h
          exact Or.inr (Or.inl h)
        · rw [if_neg ht] at h
          exact rpcPriorityCascade_eq_some m apiKeys chain url h
      | Metamask =>
        by_cases ht : truthyOpt (getMetamaskRpcUrl m apiKeys.metamaskApiKey chain)
        · rw [if_pos ht] at h
          exact Or.inr (Or.inr (Or.inl h))
        · rw [if_neg ht] at h
          exact rpcPriorityCascade_eq_some m apiKeys chain url h
      | QuickNode =>
        by_cases ht : truthyOpt (getQuickNodeRpcUrl m apiKeys.quicknodeApiKey chain)
        · rw [if_pos ht] at h
          exact Or.inl h
        · rw [if_neg ht] at h
          exact rpcPriorityCascade_eq_some m apiKeys chain url h
  · intro apiKeys2 endpoint2 url h
    rcases endpoint2 with _ | e
    · exact rpcPriorityCascadeV2_eq_ok_some m apiKeys2 chain url h
    · cases e with
      | Alchemy => exact Or.inr (Or.inr h)
      | Ankr => exact Or.inl h
      | Metamask => exact Or.inr (Or.inl h)

/-- Witness for claim C10 at the spec-modelled registry: a full variant-1
bundle with no preference yields the QuickNode URL, which is indeed the
QuickNode builder's output; the variant-2 bundle yields the Ankr URL. -/
theorem getRpcUrl_result_from_builders_witness :
    getRpcUrl CHAIN_INFO_MAP ⟨some "a-key", some "b-key", some "c-key", some "sub:tok"⟩
      "eth_mainnet" none = some "https://sub.ethereum-mainnet.quiknode.pro/tok/" ∧
    getQuickNodeRpcUrl CHAIN_INFO_MAP (some "sub:tok") "eth_mainnet" =
      some "https://sub.ethereum-mainnet.quiknode.pro/tok/" ∧
    (getAnkrRpcUrlV2 CHAIN_INFO_MAP "b-key" "eth_mainnet" =
        Except.ok (some "https://rpc.ankr.com/eth/b-key") ∨
      getMetamaskRpcUrlV2 CHAIN_INFO_MAP "c-key" "eth_mainnet" =
        Except.ok (some "https://rpc.ankr.com/eth/b-key") ∨
      getAlchemyRpcUrlV2 CHAIN_INFO_MAP (Sum.inl "a-key") "eth_mainnet" =
        Except.ok (some "https://rpc.ankr.com/eth/b-key")) :=
  ⟨by decide, by decide,
   (getRpcUrl_result_from_builders CHAIN_INFO_MAP "eth_mainnet").2
     ⟨some "a-key", some "b-key", some "c-key"⟩ none "https://rpc.ankr.com/eth/b-key" rfl⟩

end MailBoxConfigs
